import Mathlib

/-!
Verification of the PI_CAR patrol-robot command-and-control core.

Shallow embedding of the Python sources:
  * `src/core/fsm.py`        — FSM command arbiter (decide / dedup-emit)
  * `src/core/patrol_logic.py` — geodesy helpers, heading update, base-return edge trigger
  * `src/drivers/uart.py`    — STM32 serial response resolution and servo command builder
  * `src/global_ctx.py`      — bounded latest-value queues
  * `src/main.py`            — uart pump command-kind dedup

Timestamps and configured durations are modelled as rationals (`ℚ`);
geodesic quantities as reals (`ℝ`).  Side effects (logging, queue pushes,
serial writes) are purified into explicit return values and state records.
-/

namespace PICar

/-! ## String helpers shared by the embeddings

Python's `str.strip()` (no argument) removes leading and trailing
whitespace; we model the ASCII whitespace characters (space, tab, LF, CR,
vertical tab, form feed).  `charsStart pat s` models `s.startswith(pat)`.
These are written over `List Char` so that the kernel can evaluate them on
concrete inputs. -/

/-- Whitespace as stripped by Python's `str.strip()` (ASCII subset). -/
def isPySpace (c : Char) : Bool :=
  c = ' ' ∨ c = '\t' ∨ c = '\n' ∨ c = '\r' ∨ c = Char.ofNat 11 ∨ c = Char.ofNat 12

/-- Python `str.strip()` on a character list. -/
def pyStrip (l : List Char) : List Char :=
  ((l.dropWhile isPySpace).reverse.dropWhile isPySpace).reverse

/-- Python `str.strip()` on a `String`. -/
def pyStripStr (s : String) : String := ⟨pyStrip s.toList⟩

/-- `charsStart pat l` models Python `l.startswith(pat)`. -/
def charsStart : List Char → List Char → Bool
  | [], _ => true
  | _ :: _, [] => false
  | p :: ps, c :: cs => (p = c) && charsStart ps cs

/-- `strStarts pat s` models Python `s.startswith(pat)` on `String`s. -/
def strStarts (p s : String) : Bool := charsStart p.toList s.toList

/-! ## FSM arbiter (`src/core/fsm.py`) -/

/-- The mutable fields of `FSMService` that the decision and emission logic
reads and writes, together with its configuration.  `stop_cmd` is hard-coded
to `"S"` in `FSMService.__init__`, so it is not a field here. -/
structure FSMState where
  hold_after_lost_s : ℚ
  patrol_stale_s : ℚ
  cmd_dedup_s : ℚ
  violation_cmd : String
  last_violation_ts : ℚ
  patrol_cached_cmd : String
  patrol_cached_ts : ℚ
  last_sent_cmd : String
  last_sent_ts : ℚ
  deriving Repr, DecidableEq

/-- `FSMService._event_has_target`: only an event dict with `type ==
"violation"` grants priority; a missing event (`None`) does not.  Events are
modelled by their `type` string. -/
def event_has_target (ev : Option String) : Bool :=
  match ev with
  | some t => t = "violation"
  | none => false

/-- `FSMService._decide_output`: strict priority violation > patrol > stop.
`violation_active` is `(now - last_violation_ts) <= hold_after_lost_s`;
`patrol_fresh` is `bool(patrol_cached_cmd)` (non-empty string) and
`(now - patrol_cached_ts) <= patrol_stale_s`. -/
def decide_output (s : FSMState) (now : ℚ) : String × String :=
  let violation_active := now - s.last_violation_ts ≤ s.hold_after_lost_s
  let patrol_fresh := s.patrol_cached_cmd ≠ "" ∧ now - s.patrol_cached_ts ≤ s.patrol_stale_s
  if violation_active then (s.violation_cmd, "violation_override")
  else if patrol_fresh then (s.patrol_cached_cmd, "patrol")
  else ("S", "idle_stop")

/-- `FSMService._emit_uart`: if `cmd` equals the last actually-sent command
and strictly less than `cmd_dedup_s` has elapsed since it was sent, the
emission is suppressed (early `return`, nothing pushed to `uart_queue`).
Otherwise the command is pushed and `last_sent_cmd`/`last_sent_ts` are
updated.  The returned `Bool` is `true` iff the command was actually pushed
to the outgoing queue. -/
def emit_uart (s : FSMState) (cmd : String) (now : ℚ) : FSMState × Bool :=
  if cmd = s.last_sent_cmd ∧ now - s.last_sent_ts < s.cmd_dedup_s then
    (s, false)
  else
    ({ s with last_sent_cmd := cmd, last_sent_ts := now }, true)

/-! ## uart pump command-kind dedup (`src/main.py`) -/

/-- `main._cmd_kind`: classifies an outbound command for pump-side dedup.
The Python function returns `"stop"` for `S`/`STOP`/`S…`, `"discrete"` for
rotate/servo commands, and falls off the end (returning `None`) for every
other command — forward/backward/shift have no branch. -/
def cmd_kind (cmd : String) : Option String :=
  let c := pyStripStr cmd
  if c = "S" ∨ c = "STOP" ∨ (strStarts "S" c ∧ 2 ≤ c.length) then some "stop"
  else if strStarts "R0" c ∨ strStarts "L0" c ∨ strStarts "D" c ∨ strStarts "A" c then
    some "discrete"
  else none

/-- `main.uart_pump` repeat handling: given that the dequeued command equals
the last command the pump sent, decide whether it is sent again.  Mirrors the
`if cmd == last_cmd` block: `stop` kind falls through (`pass`) and is re-sent
as a safe no-op; `discrete` is dropped; any other kind is dropped when less
than the minimum interval (0.5 s for the default path) has elapsed.
A non-repeated command is always sent. -/
def pump_repeat_sends (last_cmd : Option String) (last_ts : ℚ) (cmd : String) (now : ℚ) : Bool :=
  if some cmd = last_cmd then
    match cmd_kind cmd with
    | some "stop" => true
    | some "discrete" => false
    | some _ => decide ((0.5 : ℚ) ≤ now - last_ts)
    | none => decide ((0.5 : ℚ) ≤ now - last_ts)
  else true

/-! ## Bounded latest-value queues (`src/global_ctx.py`) -/

/-- A `queue.Queue(maxsize)` modelled by its bound and current contents
(oldest first).  Python's `Queue.full()` is `0 < maxsize ∧ qsize ≥ maxsize`;
`maxsize ≤ 0` means unbounded. -/
structure BQueue (α : Type) where
  maxsize : ℕ
  items : List α
  deriving Repr, DecidableEq

/-- `Queue.get_nowait()`: returns the oldest item and the remaining queue,
or `none` (raises `Empty`) on an empty queue. -/
def bq_get (q : BQueue α) : Option (α × BQueue α) :=
  match q.items with
  | [] => none
  | x :: xs => some (x, ⟨q.maxsize, xs⟩)

/-- `Queue.put_nowait(x)`: appends, or `none` (raises `Full`) when the
queue is bounded and full. -/
def bq_put (q : BQueue α) (x : α) : Option (BQueue α) :=
  if 0 < q.maxsize ∧ q.maxsize ≤ q.items.length then none
  else some ⟨q.maxsize, q.items ++ [x]⟩

/-- `global_ctx.put_latest`: if the queue is full, first drop the oldest
item (`get_nowait`, exceptions swallowed), then `put_nowait` the new item;
all exceptions are caught, so the function always returns — `true` on a
successful push, `false` otherwise — and never blocks (only `_nowait`
operations are used). -/
def put_latest (q : BQueue α) (x : α) : Bool × BQueue α :=
  let q1 := if 0 < q.maxsize ∧ q.maxsize ≤ q.items.length then
              match bq_get q with
              | some (_, q') => q'
              | none => q
            else q
  match bq_put q1 x with
  | some q2 => (true, q2)
  | none => (false, q1)

/-! ## Angle normalization (`src/core/patrol_logic.py`, `_wrap180`) -/

/-- Python's `%` on numbers with a positive divisor: the remainder takes the
divisor's sign, i.e. `a % b = a - b * floor(a / b)`. -/
def pymodQ (a b : ℚ) : ℚ := a - b * ⌊a / b⌋

/-- `patrol_logic._wrap180`: `(deg + 180.0) % 360.0 - 180.0`. -/
def _wrap180 (deg : ℚ) : ℚ := pymodQ (deg + 180) 360 - 180

/-! ## Base-return edge trigger (`src/core/patrol_logic.py`, `PatrolService.run`) -/

/-- The base-trigger portion of `PatrolService.run`'s per-tick state:
`_has_departed_base`, `_last_at_base`, plus two counters — `setCalls`
counts executions of the rising-edge branch (calls of
`ctx.pack_event.set()`), and `signalSets` counts the times the signal was
actually set, which additionally requires the context attribute
`pack_event` to exist (`packEventDefined`).  `src/global_ctx.py` defines no
`pack_event`, so in the shipped program `packEventDefined = false` and the
`set()` call raises `AttributeError`, caught by the surrounding
`try/except` and logged as `request pack failed`. -/
structure PackState where
  hasDeparted : Bool
  lastAtBase : Bool
  setCalls : ℕ
  signalSets : ℕ
  deriving Repr, DecidableEq

/-- One tick of the base-trigger logic on the `at_base` observation
(`at_base = dist_base ≤ arrive_radius_m`): leaving base latches
`_has_departed_base`; the rising edge `hasDeparted ∧ atBase ∧ ¬lastAtBase`
runs the pack-request branch; then `_last_at_base := at_base`. -/
def packStep (packEventDefined : Bool) (s : PackState) (atBase : Bool) : PackState :=
  let hasDeparted := s.hasDeparted || !atBase
  let fire := hasDeparted && atBase && !s.lastAtBase
  { hasDeparted := hasDeparted
    lastAtBase := atBase
    setCalls := if fire then s.setCalls + 1 else s.setCalls
    signalSets := if fire && packEventDefined then s.signalSets + 1 else s.signalSets }

/-- The base-trigger logic folded over a whole trace of `at_base`
observations, from the initial state of `PatrolService.__init__`
(`_has_departed_base = false`, `_last_at_base = false`). -/
def packRun (packEventDefined : Bool) (trace : List Bool) : PackState :=
  trace.foldl (packStep packEventDefined) ⟨false, false, 0, 0⟩

/-! ## Servo command builder (`src/drivers/uart.py`, `servo_relative`) -/

/-- Python `f"{n:02d}"` for `0 ≤ n ≤ 99`: zero-padded to two digits. -/
def pad2 (n : ℕ) : String := if n < 10 then "0" ++ toString n else toString n

/-- `STM32Communicator.servo_relative(direction, angle)`.  The direction
check only logs an error (`print` + `logger.error`) and does *not* return;
the angle check returns `None` when `angle ∉ [0, 99]`.  Otherwise the
command `f"D{direction}0{angle:02d}"` is built and sent.  Modelled as the
pair (log lines emitted, command sent or `none`). -/
def servo_relative (direction : String) (angle : ℤ) : List String × Option String :=
  let logs : List String :=
    if direction = "0" ∨ direction = "1" then []
    else ["[ UART ] Error: The direction of the servo must be 0 (left) or 1 (right)."]
  if 0 ≤ angle ∧ angle ≤ 99 then
    (logs, some ("D" ++ direction ++ "0" ++ pad2 angle.toNat))
  else
    (logs ++ ["[ UART ] fault: The relative angle of the steering gear exceeds the limit range."],
      none)

/-! ## STM32 response resolution (`src/drivers/uart.py`) -/

/-- The value of a decimal digit character, or `none`. -/
def digitVal (c : Char) : Option ℕ :=
  if '0' ≤ c ∧ c ≤ '9' then some (c.toNat - '0'.toNat) else none

/-- The numeric value of a non-empty all-digit character list, else
`none`. -/
def digitsVal (l : List Char) : Option ℕ :=
  match l with
  | [] => none
  | _ :: _ =>
    l.foldl (fun acc c =>
      match acc, digitVal c with
      | some a, some d => some (a * 10 + d)
      | _, _ => none) (some 0)

/-- Python's `int(s)` restricted to what a ≤ 2-character slice can hold:
surrounding whitespace stripped, an optional sign, then one or more
digits; anything else raises `ValueError` (`none`). -/
def pyInt (l : List Char) : Option ℤ :=
  match pyStrip l with
  | '+' :: rest => (digitsVal rest).map (fun n => (n : ℤ))
  | '-' :: rest => (digitsVal rest).map (fun n => -(n : ℤ))
  | t => (digitsVal t).map (fun n => (n : ℤ))

/-- `STM32Response`, as `(success, error_code, data_lines)`; the
`raw_response` field is the join of the input lines and is omitted. -/
structure STM32ResponseR where
  success : Bool
  error_code : ℤ
  data_lines : List (List Char)
  deriving Repr, DecidableEq

/-- One iteration of `STM32Response.from_raw`'s first loop body: the line
is stripped; if it starts with `"ERR"` and `int(line[3:5])` parses, that is
the error code; a `ValueError` falls through (`pass`). -/
def errCode? (l : List Char) : Option ℤ :=
  let t := pyStrip l
  if charsStart ['E', 'R', 'R'] t then pyInt ((t.drop 3).take 2) else none

/-- `for line in reversed(lines): … return error_code` — the first line, in
the given order, that yields an error code. -/
def firstErrCode : List (List Char) → Option ℤ
  | [] => none
  | l :: rest =>
    match errCode? l with
    | some c => some c
    | none => firstErrCode rest

/-- `STM32Response.from_raw` on the newline-split lines of the raw data:
scan the lines in reverse for a parsable `ERRxx` terminator (failure with
that code, `data_lines` = all lines); else scan for a line equal to `"OK"`
(success, `data_lines` = all but the last line); else a failure with code
`0` carrying all lines. -/
def from_raw (lines : List (List Char)) : STM32ResponseR :=
  match firstErrCode lines.reverse with
  | some code => ⟨false, code, lines⟩
  | none =>
    if lines.any (fun l => decide (pyStrip l = ['O', 'K'])) then ⟨true, 0, lines.dropLast⟩
    else ⟨false, 0, lines⟩

/-- `STM32Communicator._wait_for_response`, purified over the finite
sequence of (readline-stripped) lines that arrive before the timeout
elapses: empty lines are skipped; `GPS,…` lines are routed to the GPS
callback and skipped; other lines are collected; a line `"OK"` resolves
success with the previously collected lines; a line starting with `"ERR"`
whose `int(line[3:5])` parses resolves failure with that code and all
collected lines; a malformed `ERR` line stays collected (`pass`) and the
loop continues; if the lines run out, the wait times out and returns
`none`. -/
def wait_for_response : List (List Char) → List (List Char) → Option STM32ResponseR
  | _, [] => none
  | collected, l :: rest =>
    let t := pyStrip l
    if t = [] then wait_for_response collected rest
    else if charsStart ['G', 'P', 'S', ','] t then wait_for_response collected rest
    else
      let collected' := collected ++ [t]
      if t = ['O', 'K'] then some ⟨true, 0, collected⟩
      else if charsStart ['E', 'R', 'R'] t then
        match pyInt ((t.drop 3).take 2) with
        | some code => some ⟨false, code, collected'⟩
        | none => wait_for_response collected' rest
      else wait_for_response collected' rest

/-! ## Geodesy and heading estimation (`src/core/patrol_logic.py`)

The Python code computes with IEEE doubles and `math.sin`/`cos`/`asin`/
`atan2`; these are modelled over the reals. -/

/-- `math.radians`. -/
noncomputable def radiansR (d : ℝ) : ℝ := d * (Real.pi / 180)

/-- `patrol_logic._haversine_m`: great-circle distance with Earth radius
`R = 6371393.0` m. -/
noncomputable def _haversine_m (lat1 lon1 lat2 lon2 : ℝ) : ℝ :=
  let p1 := radiansR lat1
  let p2 := radiansR lat2
  let dphi := radiansR (lat2 - lat1)
  let dlmb := radiansR (lon2 - lon1)
  let a := Real.sin (dphi / 2) ^ 2 + Real.cos p1 * Real.cos p2 * Real.sin (dlmb / 2) ^ 2
  2 * 6371393 * Real.arcsin (Real.sqrt a)

/-- `math.atan2(y, x)` over the reals. -/
noncomputable def atan2R (y x : ℝ) : ℝ :=
  if 0 < x then Real.arctan (y / x)
  else if x < 0 ∧ 0 ≤ y then Real.arctan (y / x) + Real.pi
  else if x < 0 ∧ y < 0 then Real.arctan (y / x) - Real.pi
  else if x = 0 ∧ 0 < y then Real.pi / 2
  else if x = 0 ∧ y < 0 then -(Real.pi / 2)
  else 0

/-- Python `%` over the reals with a positive divisor. -/
noncomputable def pymodR (a b : ℝ) : ℝ := a - b * ⌊a / b⌋

/-- `patrol_logic._bearing_deg`: initial great-circle bearing, normalized
to `[0, 360)` by `(brng + 360.0) % 360.0`. -/
noncomputable def _bearing_deg (lat1 lon1 lat2 lon2 : ℝ) : ℝ :=
  let p1 := radiansR lat1
  let p2 := radiansR lat2
  let dlmb := radiansR (lon2 - lon1)
  let y := Real.sin dlmb * Real.cos p2
  let x := Real.cos p1 * Real.sin p2 - Real.sin p1 * Real.cos p2 * Real.cos dlmb
  let brng := atan2R y x * (180 / Real.pi)
  pymodR (brng + 360) 360

/-- The heading-estimation fields of `PatrolService`: `_last_pos`
(`(lat, lon, ts)` or `None`) and `_heading_deg` (`None` until first
qualifying displacement). -/
structure HeadingState where
  lastPos : Option (ℝ × ℝ × ℝ)
  headingDeg : Option ℝ

/-- `PatrolService._update_heading_from_motion(lat, lon, ts)`: on the first
fix only `_last_pos` is seeded; afterwards the heading and `_last_pos` are
updated only when the haversine displacement from the stored point is at
least `heading_update_min_move_m`. -/
noncomputable def _update_heading_from_motion (heading_update_min_move_m : ℝ)
    (s : HeadingState) (lat lon ts : ℝ) : HeadingState :=
  match s.lastPos with
  | none => { s with lastPos := some (lat, lon, ts) }
  | some (lat0, lon0, _) =>
    if heading_update_min_move_m ≤ _haversine_m lat0 lon0 lat lon then
      { lastPos := some (lat, lon, ts), headingDeg := some (_bearing_deg lat0 lon0 lat lon) }
    else s

end PICar

namespace PICar

/-! ## Theorems: FSM arbiter claims -/

/-- C1.  Arbiter priority: at any tick, if the most recent qualifying
violation is at most `hold_after_lost_s` old, `_decide_output` returns the
configured violation command with reason `"violation_override"`, regardless
of the cached patrol suggestion. -/
theorem decide_output_violation_priority (s : FSMState) (now : ℚ)
    (h : now - s.last_violation_ts ≤ s.hold_after_lost_s) :
    decide_output s now = (s.violation_cmd, "violation_override") := by
  unfold decide_output
  simp [h]

/-- Witness for C1: a concrete tick with a 1-second-old violation and a
perfectly fresh patrol suggestion still yields the violation command. -/
theorem decide_output_violation_priority_witness :
    (10 : ℚ) - 9 ≤ 2 ∧
      decide_output
        { hold_after_lost_s := 2, patrol_stale_s := 6, cmd_dedup_s := 1,
          violation_cmd := "ERROR", last_violation_ts := 9,
          patrol_cached_cmd := "F0002", patrol_cached_ts := 10,
          last_sent_cmd := "", last_sent_ts := 0 } 10 = ("ERROR", "violation_override") :=
  ⟨by norm_num,
    decide_output_violation_priority
      { hold_after_lost_s := 2, patrol_stale_s := 6, cmd_dedup_s := 1,
        violation_cmd := "ERROR", last_violation_ts := 9,
        patrol_cached_cmd := "F0002", patrol_cached_ts := 10,
        last_sent_cmd := "", last_sent_ts := 0 } 10 (by norm_num)⟩

/-- C2.  Emission deduplication: if a command is actually sent at `t1` and
the same command string is emitted again at `t2` with `t2 - t1 <
cmd_dedup_s`, then at most one of the two emissions actually transmits
(the second is suppressed); and at the uart pump, a repeated stop command
is passed through as a safe no-op rather than suppressed. -/
theorem emit_uart_dedup (s : FSMState) (cmd : String) (t1 t2 : ℚ)
    (h : t2 - t1 < s.cmd_dedup_s) :
    (¬ (((emit_uart s cmd t1).2 = true) ∧
        ((emit_uart (emit_uart s cmd t1).1 cmd t2).2 = true))) ∧
      (∀ lt : ℚ, pump_repeat_sends (some "S") lt "S" t2 = true) := by
  constructor
  · rintro ⟨h1, h2⟩
    unfold emit_uart at h1 h2
    by_cases hc : cmd = s.last_sent_cmd ∧ t1 - s.last_sent_ts < s.cmd_dedup_s
    · simp [hc] at h1
    · simp only [if_neg hc] at h1 h2
      simp [h] at h2
  · intro lt
    rfl

/-- Witness for C2: with `cmd_dedup_s = 2`, sending `"F0002"` at `t = 5` and
re-emitting it at `t = 6` performs at most one transmission, and the pump
re-sends a repeated `"S"`. -/
theorem emit_uart_dedup_witness :
    ((6 : ℚ) - 5 < (2 : ℚ)) ∧
      ((¬ (((emit_uart
          { hold_after_lost_s := 2, patrol_stale_s := 6, cmd_dedup_s := 2,
            violation_cmd := "ERROR", last_violation_ts := 0,
            patrol_cached_cmd := "", patrol_cached_ts := 0,
            last_sent_cmd := "", last_sent_ts := 0 } "F0002" 5).2 = true) ∧
          ((emit_uart (emit_uart
          { hold_after_lost_s := 2, patrol_stale_s := 6, cmd_dedup_s := 2,
            violation_cmd := "ERROR", last_violation_ts := 0,
            patrol_cached_cmd := "", patrol_cached_ts := 0,
            last_sent_cmd := "", last_sent_ts := 0 } "F0002" 5).1 "F0002" 6).2 = true))) ∧
        (∀ lt : ℚ, pump_repeat_sends (some "S") lt "S" 6 = true)) :=
  ⟨by norm_num,
    emit_uart_dedup
      { hold_after_lost_s := 2, patrol_stale_s := 6, cmd_dedup_s := 2,
        violation_cmd := "ERROR", last_violation_ts := 0,
        patrol_cached_cmd := "", patrol_cached_ts := 0,
        last_sent_cmd := "", last_sent_ts := 0 } "F0002" 5 6 (by norm_num)⟩

/-- C3.  Patrol-suggestion staleness: at any tick with no active violation,
a cached patrol suggestion strictly older than `patrol_stale_s` is never
selected; `_decide_output` falls through to the stop command `"S"`. -/
theorem decide_output_stale_patrol_stops (s : FSMState) (now : ℚ)
    (hv : ¬ (now - s.last_violation_ts ≤ s.hold_after_lost_s))
    (hst : s.patrol_stale_s < now - s.patrol_cached_ts) :
    decide_output s now = ("S", "idle_stop") := by
  unfold decide_output
  have : ¬ (s.patrol_cached_cmd ≠ "" ∧ now - s.patrol_cached_ts ≤ s.patrol_stale_s) := by
    rintro ⟨-, hle⟩
    exact absurd hst (not_lt.mpr hle)
  rw [if_neg hv, if_neg this]

/-- Witness for C3: a 7-second-old suggestion with `patrol_stale_s = 6` and
a long-expired violation yields the stop command. -/
theorem decide_output_stale_patrol_stops_witness :
    (¬ ((100 : ℚ) - 0 ≤ 2)) ∧ ((6 : ℚ) < 100 - 93) ∧
      decide_output
        { hold_after_lost_s := 2, patrol_stale_s := 6, cmd_dedup_s := 1,
          violation_cmd := "ERROR", last_violation_ts := 0,
          patrol_cached_cmd := "F0002", patrol_cached_ts := 93,
          last_sent_cmd := "", last_sent_ts := 0 } 100 = ("S", "idle_stop") :=
  ⟨by norm_num, by norm_num,
    decide_output_stale_patrol_stops
      { hold_after_lost_s := 2, patrol_stale_s := 6, cmd_dedup_s := 1,
        violation_cmd := "ERROR", last_violation_ts := 0,
        patrol_cached_cmd := "F0002", patrol_cached_ts := 93,
        last_sent_cmd := "", last_sent_ts := 0 } 100 (by norm_num) (by norm_num)⟩

end PICar

namespace PICar

/-! ## Theorems: latest-value slot claim -/

/-- C9.  Latest-value slot semantics: on a capacity-1 queue (holding at
most one item, as the queue invariant guarantees), `put_latest` always
succeeds without blocking or raising; it evicts the old item if present, so
the next non-blocking pop returns exactly the item just pushed and the
queue never exceeds its capacity. -/
theorem put_latest_capacity_one {α : Type} (q : BQueue α) (x : α)
    (hcap : q.maxsize = 1) (hlen : q.items.length ≤ 1) :
    (put_latest q x).1 = true ∧
    (put_latest q x).2.items = [x] ∧
    bq_get (put_latest q x).2 = some (x, ⟨q.maxsize, []⟩) ∧
    (put_latest q x).2.items.length ≤ q.maxsize := by
  rcases q with ⟨m, l⟩
  simp only at hcap hlen
  subst hcap
  cases l with
  | nil => simp [put_latest, bq_put, bq_get]
  | cons a tl =>
    cases tl with
    | nil => simp [put_latest, bq_put, bq_get]
    | cons b tl2 => simp at hlen

/-- Witness for C9: pushing `3` onto a full capacity-1 queue holding `7`
succeeds, and the next pop returns `3`. -/
theorem put_latest_capacity_one_witness :
    ((⟨1, [7]⟩ : BQueue ℕ).maxsize = 1) ∧ ((⟨1, [7]⟩ : BQueue ℕ).items.length ≤ 1) ∧
      ((put_latest (⟨1, [7]⟩ : BQueue ℕ) 3).1 = true ∧
       (put_latest (⟨1, [7]⟩ : BQueue ℕ) 3).2.items = [3] ∧
       bq_get (put_latest (⟨1, [7]⟩ : BQueue ℕ) 3).2 =
         some (3, ⟨(⟨1, [7]⟩ : BQueue ℕ).maxsize, []⟩) ∧
       (put_latest (⟨1, [7]⟩ : BQueue ℕ) 3).2.items.length ≤ (⟨1, [7]⟩ : BQueue ℕ).maxsize) :=
  ⟨rfl, by decide, put_latest_capacity_one (⟨1, [7]⟩ : BQueue ℕ) 3 rfl (by decide)⟩

/-! ## Theorems: angle normalization claim -/

/-- C5 counterexample.  The claim says `_wrap180` maps into `(-180, 180]`
and sends an angle equivalent to `180` to `+180`.  In fact
`(180 + 180) % 360 - 180 = 0 - 180 = -180`: the input `180` is mapped to
`-180`, which is not in `(-180, 180]`. -/
theorem wrap180_at_180_is_neg180 :
    _wrap180 180 = -180 ∧ ¬ (-180 < _wrap180 180) := by
  have h1 : ((180 : ℚ) + 180) / 360 = 1 := by norm_num
  have h2 : pymodQ ((180 : ℚ) + 180) 360 = 0 := by
    unfold pymodQ
    rw [h1]
    norm_num
  refine ⟨?_, ?_⟩ <;> unfold _wrap180 <;> rw [h2] <;> norm_num

/-- C5 amended.  `_wrap180` maps every rational angle into the half-open
interval `[-180, 180)` — closed below, open above (so an input equivalent
to `180` maps to `-180`, never to `+180`). -/
theorem wrap180_range (d : ℚ) : -180 ≤ _wrap180 d ∧ _wrap180 d < 180 := by
  have h1 : ((⌊(d + 180) / 360⌋ : ℚ)) ≤ (d + 180) / 360 := Int.floor_le _
  have h2 : (d + 180) / 360 < ⌊(d + 180) / 360⌋ + 1 := Int.lt_floor_add_one _
  unfold _wrap180 pymodQ
  constructor <;> linarith

/-! ## Theorems: base-return edge trigger claim -/

/-- Helper: while at base and not yet departed, further at-base
observations change nothing. -/
theorem packFoldl_home_steady (e : Bool) (m f g : ℕ) :
    List.foldl (packStep e) ⟨false, true, f, g⟩ (List.replicate m true) = ⟨false, true, f, g⟩ := by
  induction m with
  | zero => rfl
  | succ k ih => simpa [List.replicate_succ, packStep] using ih

/-- Helper: while departed and away from base, further away observations
change nothing. -/
theorem packFoldl_away_steady (e : Bool) (m f g : ℕ) :
    List.foldl (packStep e) ⟨true, false, f, g⟩ (List.replicate m false) = ⟨true, false, f, g⟩ := by
  induction m with
  | zero => rfl
  | succ k ih => simpa [List.replicate_succ, packStep] using ih

/-- Helper: after the rising edge has fired, staying parked at base fires
nothing more. -/
theorem packFoldl_returned_steady (e : Bool) (m f g : ℕ) :
    List.foldl (packStep e) ⟨true, true, f, g⟩ (List.replicate m true) = ⟨true, true, f, g⟩ := by
  induction m with
  | zero => rfl
  | succ k ih => simpa [List.replicate_succ, packStep] using ih

/-- Helper: when the context has no `pack_event` attribute, no trace ever
actually sets the signal. -/
theorem packFoldl_signalSets_of_not_defined (trace : List Bool) (s : PackState) :
    (List.foldl (packStep false) s trace).signalSets = s.signalSets := by
  induction trace generalizing s with
  | nil => rfl
  | cons x xs ih => rw [List.foldl_cons, ih]; simp [packStep]

/-- C4 (code bug).  For a base → away → base trace the rising-edge branch
runs exactly once per departure/return cycle, and zero times on a trace
that never leaves base — exactly as the claim describes the trigger logic.
But `src/global_ctx.py` never defines `ctx.pack_event`, so the
`ctx.pack_event.set()` call in that branch always raises `AttributeError`
(caught and logged): with `packEventDefined = false`, as in the shipped
program, the pack-request signal is actually set zero times on every
trace. -/
theorem pack_trigger_attempts_but_signal_never_set (a b c n : ℕ)
    (ha : 1 ≤ a) (hb : 1 ≤ b) (hc : 1 ≤ c) :
    (packRun false
        (List.replicate a true ++ List.replicate b false ++ List.replicate c true)).setCalls = 1 ∧
    (packRun false (List.replicate n true)).setCalls = 0 ∧
    (∀ trace : List Bool, (packRun false trace).signalSets = 0) := by
  obtain ⟨a', rfl⟩ := Nat.exists_eq_add_of_le ha
  obtain ⟨b', rfl⟩ := Nat.exists_eq_add_of_le hb
  obtain ⟨c', rfl⟩ := Nat.exists_eq_add_of_le hc
  refine ⟨?_, ?_, ?_⟩
  · unfold packRun
    rw [List.replicate_add, List.replicate_add, List.replicate_add]
    simp only [List.replicate_one, List.foldl_append, List.foldl_cons, List.foldl_nil]
    rw [show packStep false ⟨false, false, 0, 0⟩ true = ⟨false, true, 0, 0⟩ from rfl,
      packFoldl_home_steady,
      show packStep false ⟨false, true, 0, 0⟩ false = ⟨true, false, 0, 0⟩ from rfl,
      packFoldl_away_steady,
      show packStep false ⟨true, false, 0, 0⟩ true = ⟨true, true, 1, 0⟩ from rfl,
      packFoldl_returned_steady]
  · cases n with
    | zero => rfl
    | succ k =>
      unfold packRun
      rw [List.replicate_succ, List.foldl_cons,
        show packStep false ⟨false, false, 0, 0⟩ true = ⟨false, true, 0, 0⟩ from rfl,
        packFoldl_home_steady]
  · intro trace
    exact packFoldl_signalSets_of_not_defined trace _

/-- Witness for C4: one tick at base, one away, one back: the edge branch
runs once; two ticks parked at base run it zero times; the signal itself is
never set. -/
theorem pack_trigger_attempts_witness :
    (1 ≤ 1) ∧
      ((packRun false
          (List.replicate 1 true ++ List.replicate 1 false ++ List.replicate 1 true)).setCalls = 1 ∧
       (packRun false (List.replicate 2 true)).setCalls = 0 ∧
       (∀ trace : List Bool, (packRun false trace).signalSets = 0)) :=
  ⟨by decide,
    pack_trigger_attempts_but_signal_never_set 1 1 1 2 (by decide) (by decide) (by decide)⟩

end PICar

namespace PICar

/-! ## Theorems: servo command builder claim -/

/-- C10.  For any direction string other than `"0"`/`"1"` and any angle in
`0..99`, `servo_relative` does not reject the call: it emits an error log
line but still builds and sends `D<dir>0<angle>` — the invalid direction
reaches the microcontroller, unlike the out-of-range-angle path which
returns `None`. -/
theorem servo_relative_invalid_direction_still_sends (d : String) (a : ℤ)
    (hd0 : d ≠ "0") (hd1 : d ≠ "1") (h0 : 0 ≤ a) (h99 : a ≤ 99) :
    (servo_relative d a).2 = some ("D" ++ d ++ "0" ++ pad2 a.toNat) ∧
    (servo_relative d a).1 ≠ [] := by
  have hlog : ¬ (d = "0" ∨ d = "1") := by
    rintro (h | h)
    · exact hd0 h
    · exact hd1 h
  simp only [servo_relative]
  rw [if_neg hlog, if_pos ⟨h0, h99⟩]
  exact ⟨rfl, by simp⟩

/-- Witness for C10: direction `"2"` with angle `15` is not rejected — the
command `D2015` is sent and an error line is logged. -/
theorem servo_relative_invalid_direction_witness :
    (("2" : String) ≠ "0") ∧ (("2" : String) ≠ "1") ∧ ((0 : ℤ) ≤ 15) ∧ ((15 : ℤ) ≤ 99) ∧
      ((servo_relative "2" 15).2 = some ("D" ++ "2" ++ "0" ++ pad2 (15 : ℤ).toNat) ∧
       (servo_relative "2" 15).1 ≠ []) ∧
      (servo_relative "2" 15).2 = some "D2015" :=
  ⟨by decide, by decide, by decide, by decide,
    servo_relative_invalid_direction_still_sends "2" 15 (by decide) (by decide) (by decide)
      (by decide),
    by decide⟩

/-! ## Theorems: haversine identity claim -/

/-- Helper: the haversine vanishes on coincident points (all angle
differences are zero). -/
theorem haversine_self (lat lon : ℝ) : _haversine_m lat lon lat lon = 0 := by
  unfold _haversine_m radiansR
  simp

/-- C8.  Haversine identity: for every coordinate pair `A = (lat, lon)`,
`_haversine_m` (Earth radius 6 371 393 m) gives distance `0` from `A` to
itself. -/
theorem haversine_self_is_zero (lat lon : ℝ) : _haversine_m lat lon lat lon = 0 :=
  haversine_self lat lon

/-! ## Theorems: heading-jitter suppression claim -/

/-- C6.  Heading-jitter suppression: with a stored last position, a new
GPS fix whose haversine displacement is strictly below
`heading_update_min_move_m` leaves the whole heading state — both
`_heading_deg` and `_last_pos` — unchanged; the heading is recomputed only
on a displacement reaching the threshold. -/
theorem update_heading_jitter_suppressed (minMove : ℝ) (s : HeadingState)
    (lat0 lon0 ts0 lat lon ts : ℝ)
    (hpos : s.lastPos = some (lat0, lon0, ts0))
    (hjit : _haversine_m lat0 lon0 lat lon < minMove) :
    _update_heading_from_motion minMove s lat lon ts = s := by
  unfold _update_heading_from_motion
  rw [hpos]
  exact if_neg (not_le.mpr hjit)

/-- Witness for C6: from stored position `(0, 0)` with threshold `1` m, a
new fix at the same `(0, 0)` (displacement `0 < 1`) changes nothing. -/
theorem update_heading_jitter_witness :
    ((⟨some (0, 0, 0), none⟩ : HeadingState).lastPos = some (0, 0, 0)) ∧
    (_haversine_m 0 0 0 0 < 1) ∧
    (_update_heading_from_motion 1 (⟨some (0, 0, 0), none⟩ : HeadingState) 0 0 5 =
      (⟨some (0, 0, 0), none⟩ : HeadingState)) :=
  ⟨rfl, by simp [haversine_self],
    update_heading_jitter_suppressed 1 (⟨some (0, 0, 0), none⟩ : HeadingState) 0 0 0 0 0 5 rfl
      (by simp [haversine_self])⟩

/-! ## Theorems: malformed error terminator claim -/

/-- C7 counterexample.  The claim says the response resolution treats a
terminal line `ERRxx` with a non-numeric code as a failure with error code
`0` rather than dropping the line or timing out.  On the live resolution
path, `_wait_for_response`, the `int(line[3:5])` `ValueError` is `pass`ed:
the malformed terminator resolves nothing, and with no further terminal
line the wait times out and returns `None` — not a code-0 failure. -/
theorem wait_malformed_err_times_out :
    wait_for_response [] [['E', 'R', 'R', 'x', 'x']] = none := by decide

/-- Helper: a successful `charsStart` exhibits the pattern as a prefix. -/
theorem charsStart_eq_append {p s : List Char} (h : charsStart p s = true) :
    ∃ t, s = p ++ t := by
  induction p generalizing s with
  | nil => exact ⟨s, rfl⟩
  | cons a ps ih =>
    cases s with
    | nil => exact absurd h (by simp [charsStart])
    | cons b bs =>
      simp only [charsStart, Bool.and_eq_true, decide_eq_true_eq] at h
      obtain ⟨hab, h2⟩ := h
      obtain ⟨t, ht⟩ := ih h2
      exact ⟨t, by simp [hab, ht]⟩

/-- C7 amended.  A line whose stripped form starts with `"ERR"` but whose
following two characters do not parse as a number is treated as a code-0
failure only by the (uncalled) `STM32Response.from_raw`; the live
resolution path `_wait_for_response` keeps the line in the collected body
without resolving, and, absent any other terminal line, times out and
returns no response. -/
theorem malformed_err_from_raw_zero_but_wait_none (l : List Char)
    (herr : charsStart ['E', 'R', 'R'] (pyStrip l) = true)
    (hbad : pyInt (((pyStrip l).drop 3).take 2) = none) :
    from_raw [l] = ⟨false, 0, [l]⟩ ∧ wait_for_response [] [l] = none := by
  obtain ⟨rest, hs⟩ := charsStart_eq_append herr
  rw [hs] at hbad
  simp only [List.append_eq, List.cons_append, List.nil_append, List.drop_succ_cons,
    List.drop_zero] at hbad
  have he : errCode? l = none := by
    unfold errCode?
    rw [if_pos herr, hs]
    simpa using hbad
  constructor
  · unfold from_raw
    rw [show ([l] : List (List Char)).reverse = [l] from rfl]
    rw [show firstErrCode [l] = none by simp [firstErrCode, he]]
    simp [hs]
  · simp [wait_for_response, hs, charsStart, hbad]

/-- Witness for C7 amended: the malformed terminator `ERRxx` yields a
code-0 failure from `from_raw` and a timeout (`none`) from the wait
loop. -/
theorem malformed_err_witness :
    (charsStart ['E', 'R', 'R'] (pyStrip ['E', 'R', 'R', 'x', 'x']) = true) ∧
    (pyInt (((pyStrip ['E', 'R', 'R', 'x', 'x']).drop 3).take 2) = none) ∧
      (from_raw [['E', 'R', 'R', 'x', 'x']] = ⟨false, 0, [['E', 'R', 'R', 'x', 'x']]⟩ ∧
       wait_for_response [] [['E', 'R', 'R', 'x', 'x']] = none) :=
  ⟨by decide, by decide,
    malformed_err_from_raw_zero_but_wait_none ['E', 'R', 'R', 'x', 'x'] (by decide) (by decide)⟩

end PICar
